import Mathlib

/-!
Verification of the TrustChain Trust Score & Integrity Ledger engine.

Shallow embedding of `src/core.py`, `src/trust_score.py`, `src/traffic_light.py`
and `sim/sim.py`. Python dicts are association lists over a JSON-like `Value`
type, Python floats are modelled as rationals, and the effectful parts
(receipt emission, the `StopRule` exception) are modelled by returning an
explicit trace of emitted records together with an `Except` result.
-/

namespace TrustChain

/-! ## Python-like values

A receipt is an arbitrary keyed mapping of string keys to heterogeneous
values (spec section 3).  `vint` and `vbool` are separate constructors, but
the embedding of `isinstance(x, int)` treats booleans as ints, as Python
does.  Python floats are modelled as rationals. -/

inductive Value where
  | vnull : Value
  | vbool (b : Bool) : Value
  | vint (n : Int) : Value
  | vfloat (q : Rat) : Value
  | vstr (s : String) : Value
  | vlist (xs : List Value) : Value
  | vdict (d : List (String × Value)) : Value

abbrev Dict := List (String × Value)

/-- Dictionary lookup, `d.get(k)` returning `None` as `none`.  Python dicts
have unique keys, so first-match lookup is faithful. -/
def dictGet? (d : Dict) (k : String) : Option Value :=
  match d with
  | [] => none
  | (k1, v) :: rest => if k1 = k then some v else dictGet? rest k

/-- Dictionary lookup with default, `d.get(k, dflt)`. -/
def dictGetD (d : Dict) (k : String) (dflt : Value) : Value :=
  (dictGet? d k).getD dflt

/-- Python truthiness, `bool(x)`. -/
def truthy : Value → Bool
  | .vnull => false
  | .vbool b => b
  | .vint n => n != 0
  | .vfloat q => q != 0
  | .vstr s => s != ""
  | .vlist xs => !xs.isEmpty
  | .vdict d => !d.isEmpty

/-- Embedding of `isinstance(x, int)` followed by use as an integer: Python
booleans are instances of `int` (`True` counts as `1`). -/
def asInt : Value → Option Int
  | .vint n => some n
  | .vbool b => some (if b then 1 else 0)
  | _ => none

/-- Embedding of `len(x)`: defined for strings, lists and dicts, a
`TypeError` (`none`) otherwise. -/
def pyLen : Value → Option Nat
  | .vstr s => some s.length
  | .vlist xs => some xs.length
  | .vdict d => some d.length
  | _ => none

/-- Numbers comparable with a float literal (`x >= 0.90`): int, bool, float.
Anything else raises `TypeError` (`none`). -/
def numComparable : Value → Option Rat
  | .vint n => some (n : Rat)
  | .vbool b => some (if b then 1 else 0)
  | .vfloat q => some q
  | _ => none

/-- ASCII lower-casing of one character (models `str.lower()` on the ASCII
strings this code manipulates). -/
def asciiLowerChar (c : Char) : Char :=
  if 65 ≤ c.toNat ∧ c.toNat ≤ 90 then Char.ofNat (c.toNat + 32) else c

def asciiLower (s : String) : String := String.mk (s.data.map asciiLowerChar)

/-- Value of a digit string read in base 10. -/
def digitsToNat (cs : List Char) : Nat :=
  cs.foldl (fun a c => a * 10 + (c.toNat - 48)) 0

/-- Split a character list at the first occurrence of `c`; the second
component is `none` when `c` does not occur. -/
def splitOnChar (c : Char) : List Char → List Char × Option (List Char)
  | [] => ([], none)
  | x :: xs =>
    if x = c then ([], some xs)
    else
      let (a, b) := splitOnChar c xs
      (x :: a, b)

/-- Leading sign of a numeric literal: `(negative, rest)`. -/
def parseSign : List Char → Bool × List Char
  | '-' :: xs => (true, xs)
  | '+' :: xs => (false, xs)
  | xs => (false, xs)

/-- Unsigned mantissa `digits[.digits]` with at least one digit. -/
def parseMantissa (cs : List Char) : Option Rat :=
  let (ip, fpOpt) := splitOnChar '.' cs
  let fp := fpOpt.getD []
  if ip.all Char.isDigit ∧ fp.all Char.isDigit ∧ (ip ≠ [] ∨ fp ≠ []) then
    some ((digitsToNat ip : Rat) + (digitsToNat fp : Rat) / ((10 : Rat) ^ fp.length))
  else none

/-- Model of the numeric-literal core of Python `float(str)`: optional
surrounding whitespace, optional sign, decimal mantissa, optional exponent.
The `inf`/`nan`/underscore forms are not modelled; they are rejected, which
no claim exercises. -/
def parsePyFloat (s : String) : Option Rat :=
  let cs := ((asciiLower s).data.dropWhile Char.isWhitespace).reverse.dropWhile Char.isWhitespace |>.reverse
  let (neg, cs) := parseSign cs
  let (mantCs, expOpt) := splitOnChar 'e' cs
  match parseMantissa mantCs with
  | none => none
  | some m =>
    let m := if neg then -m else m
    match expOpt with
    | none => some m
    | some ecs =>
      let (eneg, ecs) := parseSign ecs
      if ecs ≠ [] ∧ ecs.all Char.isDigit then
        let e := digitsToNat ecs
        some (if eneg then m / (10 : Rat) ^ e else m * (10 : Rat) ^ e)
      else none

/-- Embedding of `float(x)`: ints, bools and floats convert; strings go
through the literal parser; `None`, lists and dicts raise (`none`). -/
def pyFloat : Value → Option Rat
  | .vint n => some (n : Rat)
  | .vbool b => some (if b then 1 else 0)
  | .vfloat q => some q
  | .vstr s => parsePyFloat s
  | _ => none

/-- Modelled decimal form of a float (Python `repr` of floats is not
reproduced exactly; no claim depends on it). -/
def floatRepr (q : Rat) : String :=
  if q.den = 1 then toString q.num ++ ".0"
  else toString q.num ++ "/" ++ toString q.den

mutual
/-- Python `repr(x)` over the `Value` type (single-quoted strings). -/
def pyRepr : Value → String
  | .vnull => "None"
  | .vbool b => if b then "True" else "False"
  | .vint n => toString n
  | .vfloat q => floatRepr q
  | .vstr s => "\x27" ++ s ++ "\x27"
  | .vlist xs => "[" ++ String.intercalate ", " (pyReprList xs) ++ "]"
  | .vdict d => "\x7b" ++ String.intercalate ", " (pyReprEntries d) ++ "\x7d"
def pyReprList : List Value → List String
  | [] => []
  | v :: vs => pyRepr v :: pyReprList vs
def pyReprEntries : Dict → List String
  | [] => []
  | (k, v) :: rest => ("\x27" ++ k ++ "\x27: " ++ pyRepr v) :: pyReprEntries rest
end

/-- Python `str(x)`. -/
def pyStr : Value → String
  | .vstr s => s
  | v => pyRepr v

/-! ## SHA-256 (`hashlib.sha256`)

A bit-faithful SHA-256 over byte lists, words as `Nat` reduced mod `2^32`,
so that the dual-hash fingerprints of concrete inputs can be computed
inside proofs. -/

def pow32 : Nat := 4294967296

def add32 (a b : Nat) : Nat := (a + b) % pow32

def rotr32 (x n : Nat) : Nat := ((x >>> n) ||| (x <<< (32 - n))) % pow32

/-- The 64 SHA-256 round constants (FIPS 180-4), in decimal. -/
def sha256K : List Nat :=
  [1116352408, 1899447441, 3049323471, 3921009573, 961987163, 1508970993,
   2453635748, 2870763221, 3624381080, 310598401, 607225278, 1426881987,
   1925078388, 2162078206, 2614888103, 3248222580, 3835390401, 4022224774,
   264347078, 604807628, 770255983, 1249150122, 1555081692, 1996064986,
   2554220882, 2821834349, 2952996808, 3210313671, 3336571891, 3584528711,
   113926993, 338241895, 666307205, 773529912, 1294757372, 1396182291,
   1695183700, 1986661051, 2177026350, 2456956037, 2730485921, 2820302411,
   3259730800, 3345764771, 3516065817, 3600352804, 4094571909, 275423344,
   430227734, 506948616, 659060556, 883997877, 958139571, 1322822218,
   1537002063, 1747873779, 1955562222, 2024104815, 2227730452, 2361852424,
   2428436474, 2756734187, 3204031479, 3329325298]

/-- The eight SHA-256 initial hash words (FIPS 180-4), in decimal. -/
def sha256H0 : List Nat :=
  [1779033703, 3144134277, 1013904242, 2773480762,
   1359893119, 2600822924, 528734635, 1541459225]

/-- Big-endian 32-bit words from bytes, in groups of four. -/
def bytesToWordsBE : List Nat → List Nat
  | b0 :: b1 :: b2 :: b3 :: rest =>
      (b0 * 16777216 + b1 * 65536 + b2 * 256 + b3) :: bytesToWordsBE rest
  | _ => []

def wordToBytesBE (w : Nat) : List Nat :=
  [(w >>> 24) &&& 255, (w >>> 16) &&& 255, (w >>> 8) &&& 255, w &&& 255]

/-- One extension step of the message schedule; the accumulator holds the
schedule so far in reverse order (head is the most recent word). -/
def scheduleStep (w : List Nat) : List Nat :=
  let x15 := w.getD 14 0
  let x2 := w.getD 1 0
  let s0 := (rotr32 x15 7) ^^^ (rotr32 x15 18) ^^^ (x15 >>> 3)
  let s1 := (rotr32 x2 17) ^^^ (rotr32 x2 19) ^^^ (x2 >>> 10)
  ((w.getD 15 0 + s0 + w.getD 6 0 + s1) % pow32) :: w

/-- The 64-word message schedule from the 16 block words. -/
def sha256Schedule (ws : List Nat) : List Nat :=
  (Nat.rec (motive := fun _ => List Nat) ws.reverse (fun _ acc => scheduleStep acc) 48).reverse

/-- One SHA-256 round on the eight-word state. -/
def sha256Round (st : List Nat) (kw : Nat × Nat) : List Nat :=
  match st with
  | [a, b, c, d, e, f, g, h] =>
    let S1 := (rotr32 e 6) ^^^ (rotr32 e 11) ^^^ (rotr32 e 25)
    let ch := (e &&& f) ^^^ ((e ^^^ 0xffffffff) &&& g)
    let temp1 := (h + S1 + ch + kw.1 + kw.2) % pow32
    let S0 := (rotr32 a 2) ^^^ (rotr32 a 13) ^^^ (rotr32 a 22)
    let maj := (a &&& b) ^^^ (a &&& c) ^^^ (b &&& c)
    let temp2 := (S0 + maj) % pow32
    [(temp1 + temp2) % pow32, a, b, c, (d + temp1) % pow32, e, f, g]
  | other => other

def sha256Compress (h : List Nat) (block : List Nat) : List Nat :=
  let w := sha256Schedule (bytesToWordsBE block)
  let final := (sha256K.zip w).foldl sha256Round h
  List.zipWith add32 h final

/-- Merkle-Damgard padding: `0x80`, zeros to 56 mod 64, 64-bit big-endian
bit length. -/
def sha256Pad (msg : List Nat) : List Nat :=
  let len := msg.length
  let zeros := (119 - len % 64) % 64
  msg ++ [128] ++ List.replicate zeros 0 ++
    [(len * 8 >>> 56) &&& 255, (len * 8 >>> 48) &&& 255, (len * 8 >>> 40) &&& 255,
     (len * 8 >>> 32) &&& 255, (len * 8 >>> 24) &&& 255, (len * 8 >>> 16) &&& 255,
     (len * 8 >>> 8) &&& 255, (len * 8) &&& 255]

/-- Iterate the compression function over 64-byte blocks.  The fuel is a
structural-recursion device; any fuel at least the number of blocks gives
the same result, and callers pass one more than the block count. -/
def sha256BlocksFuel : Nat → List Nat → List Nat → List Nat
  | 0, h, _ => h
  | _, h, [] => h
  | fuel + 1, h, x :: xs =>
      sha256BlocksFuel fuel (sha256Compress h ((x :: xs).take 64)) ((x :: xs).drop 64)

def sha256Bytes (msg : List Nat) : List Nat :=
  let padded := sha256Pad msg
  ((sha256BlocksFuel (padded.length / 64 + 1) sha256H0 padded).map wordToBytesBE).flatten

def hexDigitChar (n : Nat) : Char :=
  if n < 10 then Char.ofNat (48 + n) else Char.ofNat (87 + n)

def byteToHex (b : Nat) : String :=
  String.mk [hexDigitChar (b / 16), hexDigitChar (b % 16)]

def bytesToHex (bs : List Nat) : String := String.join (bs.map byteToHex)

/-- UTF-8 encoding of one character. -/
def utf8Char (c : Char) : List Nat :=
  let n := c.toNat
  if n < 128 then [n]
  else if n < 2048 then [192 + n / 64, 128 + n % 64]
  else if n < 65536 then [224 + n / 4096, 128 + (n / 64) % 64, 128 + n % 64]
  else [240 + n / 262144, 128 + (n / 4096) % 64, 128 + (n / 64) % 64, 128 + n % 64]

def utf8Bytes (s : String) : List Nat := (s.data.map utf8Char).flatten

def sha256hex (s : String) : String := bytesToHex (sha256Bytes (utf8Bytes s))

/-- Embedding of `core.dual_hash`.  The secondary BLAKE3 digest comes from
an external package that is not part of the sources, so the embedded
function follows the documented `HAS_BLAKE3 = False` fallback branch of
`core.py`: the SHA-256 digest fills both slots
(`sha256_hex:sha256_hex`).  Every claim about `dual_hash` holds for either
branch, since none distinguishes the two slots. -/
def dual_hash (s : String) : String :=
  let h := sha256hex s
  h ++ ":" ++ h

/-! ## Canonical JSON serialization (`json.dumps(x, sort_keys=True)`)

Default separators `", "` and `": "`, keys sorted at every level.  Sorting
is applied as a recursive pre-pass over the value tree, which is equivalent
to `sort_keys=True` sorting at output time. -/

def jsonQuoteChar (c : Char) : String :=
  if c = '"' then "\\\""
  else if c = '\\' then "\\\\"
  else String.mk [c]

def jsonQuote (s : String) : String :=
  "\"" ++ String.join (s.data.map jsonQuoteChar) ++ "\""

/-- Insertion into a key-sorted association list. -/
def insertSorted (kv : String × Value) : Dict → Dict
  | [] => [kv]
  | x :: xs => if kv.1 ≤ x.1 then kv :: x :: xs else x :: insertSorted kv xs

def sortByKey (d : Dict) : Dict := d.foldr insertSorted []

mutual
/-- Recursively sort all dictionary keys in a value tree. -/
def sortValue : Value → Value
  | .vdict d => .vdict (sortByKey (sortEntries d))
  | .vlist xs => .vlist (sortList xs)
  | v => v
def sortList : List Value → List Value
  | [] => []
  | v :: vs => sortValue v :: sortList vs
def sortEntries : Dict → Dict
  | [] => []
  | (k, v) :: rest => (k, sortValue v) :: sortEntries rest
end

mutual
/-- Serialize a (key-sorted) value with Python default separators. -/
def jsonDumpsRaw : Value → String
  | .vnull => "null"
  | .vbool b => if b then "true" else "false"
  | .vint n => toString n
  | .vfloat q => floatRepr q
  | .vstr s => jsonQuote s
  | .vlist xs => "[" ++ String.intercalate ", " (jsonDumpsList xs) ++ "]"
  | .vdict d => "\x7b" ++ String.intercalate ", " (jsonDumpsEntries d) ++ "\x7d"
def jsonDumpsList : List Value → List String
  | [] => []
  | v :: vs => jsonDumpsRaw v :: jsonDumpsList vs
def jsonDumpsEntries : Dict → List String
  | [] => []
  | (k, v) :: rest => (jsonQuote k ++ ": " ++ jsonDumpsRaw v) :: jsonDumpsEntries rest
end

/-- Embedding of `json.dumps(v, sort_keys=True)`. -/
def jsonDumps (v : Value) : String := jsonDumpsRaw (sortValue v)

/-! ## Receipt ledger (`core.py`)

Record emission has two layers here: `Emit` is the trace entry a call to
one of the emitters leaves behind (record type plus payload), used to state
ordering of audit evidence; `emit_receipt_record` is the full record
construction of `core.emit_receipt`, with the emission timestamp passed in
explicitly. -/

/-- One emitted record in a trace: the `receipt_type` passed to
`core.emit_receipt` and the payload dict it was given. -/
structure Emit where
  rtype : String
  payload : Dict

/-- Payload shape built by `core.emit_anomaly`. -/
def emit_anomaly (metric : String) (baseline actual : Rat)
    (classification action : String) : Emit :=
  ⟨"anomaly",
   [("tenant_id", .vstr "default"), ("metric", .vstr metric),
    ("baseline", .vfloat baseline), ("actual", .vfloat actual),
    ("delta", .vfloat (actual - baseline)),
    ("classification", .vstr classification), ("action", .vstr action)]⟩

/-- Payload shape built by `core.emit_bias`. -/
def emit_bias (groups : List String) (disparity threshold : Rat)
    (mitigation_action : String) : Emit :=
  ⟨"bias",
   [("tenant_id", .vstr "default"),
    ("groups", .vlist (groups.map Value.vstr)),
    ("disparity", .vfloat disparity), ("threshold", .vfloat threshold),
    ("mitigation_action", .vstr mitigation_action)]⟩

/-- Python dict update `d[k] = v`: replace the first (unique) occurrence in
place, or append when the key is absent. -/
def dictSet (d : Dict) (k : String) (v : Value) : Dict :=
  match d with
  | [] => [(k, v)]
  | (k1, v1) :: rest => if k1 = k then (k1, v) :: rest else (k1, v1) :: dictSet rest k v

/-- The `{base..., **data}` dict-literal merge: later entries override. -/
def dictMerge (base : Dict) (upd : Dict) : Dict :=
  upd.foldl (fun d kv => dictSet d kv.1 kv.2) base

/-- Record construction of `core.emit_receipt` (lines 79-85): the four
metadata fields in literal order, then `**data` merged over them; the
emission timestamp `ts` is a parameter of the embedding. -/
def emit_receipt_record (receipt_type ts : String) (data : Dict) : Dict :=
  dictMerge
    [("receipt_type", .vstr receipt_type),
     ("ts", .vstr ts),
     ("tenant_id", dictGetD data "tenant_id" (.vstr "default")),
     ("payload_hash", .vstr (dual_hash (jsonDumps (.vdict data))))]
    data

/-- Effect summary of one `core.emit_receipt` call. -/
structure EmitOutcome where
  record : Dict
  line : String
  ledger_line : Option String
  warn : Bool

/-- Embedding of `core.emit_receipt` including its failure semantics:
`appendOk` is whether the durable append succeeds.  The `IOError` of a
failed append is caught (stderr warning, no ledger line) and the
constructed record is returned either way; only a serialization failure
would propagate, and serialization is total on `Value`. -/
def emit_receipt_attempt (receipt_type ts : String) (data : Dict)
    (appendOk : Bool) : Except String EmitOutcome :=
  let record := emit_receipt_record receipt_type ts data
  let line := jsonDumps (.vdict record)
  match (if appendOk then Except.ok () else Except.error "IOError: unwritable ledger") with
  | Except.ok _ => Except.ok ⟨record, line, some (line ++ "\n"), false⟩
  | Except.error _ => Except.ok ⟨record, line, none, true⟩

/-! ## Merkle aggregator (`core.merkle`) -/

/-- Pairwise combination of one tree level (the list comprehension of
`core.merkle`): adjacent fingerprints are concatenated and dual-hashed. -/
def merkle_hash_pairs : List String → List String
  | a :: b :: rest => dual_hash (a ++ b) :: merkle_hash_pairs rest
  | _ => []

/-- One iteration of the `while` loop of `core.merkle`: pad an odd level by
duplicating the last fingerprint, then combine adjacent pairs. -/
def merkle_level (hs : List String) : List String :=
  let padded := if hs.length % 2 = 1 then hs ++ [(hs.getLast?).getD ""] else hs
  merkle_hash_pairs padded

/-- The `while len(hashes) > 1` loop.  Fuel is a structural-recursion
device; each level at least halves a list of length two or more, so fuel
equal to the initial length always suffices. -/
def merkle_loop : Nat → List String → String
  | _, [h] => h
  | 0, hs => (hs.headD "")
  | fuel + 1, hs => merkle_loop fuel (merkle_level hs)

/-- Embedding of `core.merkle`: the empty list maps to the fingerprint of
the sentinel literal `b"empty"`; otherwise each item is canonically
serialized and dual-hashed, and the tree is folded to a single root. -/
def merkle (items : List Value) : String :=
  match items with
  | [] => dual_hash "empty"
  | _ =>
    let hashes := items.map (fun item => dual_hash (jsonDumps item))
    merkle_loop hashes.length hashes

/-! ## Trust score engine (`trust_score.py`) -/

/-- `SCORE_GREEN_MIN` of `trust_score.py`. -/
def SCORE_GREEN_MIN : Int := 85

/-- `SCORE_YELLOW_MIN` of `trust_score.py`. -/
def SCORE_YELLOW_MIN : Int := 60

/-- `BIAS_THRESHOLD` of `trust_score.py`: the source literal `0.005`,
written as the equal fraction `1/200` (decimal `Rat` literals elaborate
through `Rat.ofScientific`, which does not reduce in kernel evaluation). -/
def BIAS_THRESHOLD : Rat := 1 / 200

/-- Embedding of `extract_sources` (lines 89-119): explicit
`source_count` integer first, then a `sources` list, then the same two
fields under `payload`; `0` when nothing matches. -/
def extract_sources (receipt : Dict) : Int :=
  match asInt (dictGetD receipt "source_count" .vnull) with
  | some n => n
  | none =>
  match dictGet? receipt "sources" with
  | some (.vlist sources) => (sources.length : Int)
  | _ =>
  match dictGetD receipt "payload" (.vdict []) with
  | .vdict payload =>
    (match asInt (dictGetD payload "source_count" .vnull) with
     | some n => n
     | none =>
       match dictGet? payload "sources" with
       | some (.vlist sources) => (sources.length : Int)
       | _ => 0)
  | _ => 0

/-- The approver-then-raci lookup performed at one nesting level of
`extract_approver`: a truthy `approver` field wins, else a truthy
`raci.accountable` (only when `raci` is a dict). -/
def approver_at (d : Dict) : Option String :=
  let approver := dictGetD d "approver" .vnull
  if truthy approver then some (pyStr approver)
  else
    match dictGetD d "raci" (.vdict []) with
    | .vdict raci =>
      let accountable := dictGetD raci "accountable" .vnull
      if truthy accountable then some (pyStr accountable) else none
    | _ => none

/-- Embedding of `extract_approver` (lines 122-156): top level first, then
the same lookups under a `payload` dict. -/
def extract_approver (receipt : Dict) : Option String :=
  match approver_at receipt with
  | some s => some s
  | none =>
    match dictGetD receipt "payload" (.vdict []) with
    | .vdict payload => approver_at payload
    | _ => none

/-- Embedding of `extract_confidence` (lines 159-194).  Top level: a value
whose `float()` lands in `[0,1]` is returned, one in `(1,100]` is
normalized by `/100`; a conversion failure or an out-of-range value falls
through (no `return` is executed).  Payload fallback: only `[0,1]` values
are accepted, with no percentage branch. -/
def extract_confidence (receipt : Dict) : Option Rat :=
  let top : Option Rat :=
    match dictGet? receipt "confidence" with
    | none => none
    | some .vnull => none
    | some c =>
      match pyFloat c with
      | none => none
      | some conf =>
        if 0 ≤ conf ∧ conf ≤ 1 then some conf
        else if 0 ≤ conf ∧ conf ≤ 100 then some (conf / 100)
        else none
  match top with
  | some conf => some conf
  | none =>
    match dictGetD receipt "payload" (.vdict []) with
    | .vdict payload =>
      (match dictGet? payload "confidence" with
       | none => none
       | some .vnull => none
       | some c =>
         match pyFloat c with
         | none => none
         | some conf => if 0 ≤ conf ∧ conf ≤ 1 then some conf else none)
    | _ => none

/-- Embedding of `check_monte_carlo` (lines 197-223): three accepted field
aliases at top level, two under `payload`. -/
def check_monte_carlo (receipt : Dict) : Bool :=
  truthy (dictGetD receipt "monte_carlo_validated" .vnull) ||
  truthy (dictGetD receipt "monte_carlo_passed" .vnull) ||
  truthy (dictGetD receipt "simulation_validated" .vnull) ||
  (match dictGetD receipt "payload" (.vdict []) with
   | .vdict payload =>
     truthy (dictGetD payload "monte_carlo_validated" .vnull) ||
     truthy (dictGetD payload "monte_carlo_passed" .vnull)
   | _ => false)

/-- Embedding of `check_human_verified` (lines 226-252). -/
def check_human_verified (receipt : Dict) : Bool :=
  truthy (dictGetD receipt "human_verified" .vnull) ||
  truthy (dictGetD receipt "intervention_receipt" .vnull) ||
  truthy (dictGetD receipt "human_approved" .vnull) ||
  (match dictGetD receipt "payload" (.vdict []) with
   | .vdict payload =>
     truthy (dictGetD payload "human_verified" .vnull) ||
     truthy (dictGetD payload "intervention_receipt" .vnull)
   | _ => false)

/-- Embedding of `has_raci_chain` (lines 255-275).  When the top-level
`raci` value is a dict (including the `{}` default for an absent field)
the function returns immediately; the payload fallback is reached only
when `raci` is present and not a dict. -/
def has_raci_chain (receipt : Dict) : Bool :=
  match dictGetD receipt "raci" (.vdict []) with
  | .vdict raci => truthy (dictGetD raci "accountable" .vnull)
  | _ =>
    match dictGetD receipt "payload" (.vdict []) with
    | .vdict payload =>
      (match dictGetD payload "raci" (.vdict []) with
       | .vdict raci => truthy (dictGetD raci "accountable" .vnull)
       | _ => false)
    | _ => false

/-- Truthiness of the Python `Optional[str]` returned by
`extract_approver`: `None` and the empty string are falsy. -/
def optStrTruthy : Option String → Bool
  | some s => s != ""
  | none => false

/-- Emission-then-raise of `stoprule_trust_score_invalid` (lines 356-373):
the anomaly record is in the trace, and the result is the `StopRule`
error. -/
def stoprule_trust_score_invalid (score : Int) : List Emit × Except String Int :=
  ([emit_anomaly "trust_score_range" 50 (score : Rat) "violation" "halt"],
   Except.error ("Trust score " ++ toString score ++ " out of valid range [0, 100]"))

/-- Source-count contribution of `compute_trust_score` (lines 45-51). -/
def score_sources_part (receipt : Dict) : Int :=
  let source_count := extract_sources receipt
  if source_count ≥ 5 then 20
  else if source_count ≥ 3 then 10
  else if source_count ≥ 1 then 5
  else 0

/-- Approver and RACI-chain contribution (lines 54-59). -/
def score_approver_part (receipt : Dict) : Int :=
  if optStrTruthy (extract_approver receipt) then
    15 + (if has_raci_chain receipt then 10 else 0)
  else 0

/-- Confidence contribution (lines 62-69); the source thresholds 0.90,
0.75, 0.50 are written as the equal fractions. -/
def score_confidence_part (receipt : Dict) : Int :=
  match extract_confidence receipt with
  | some confidence =>
    if confidence ≥ 9 / 10 then 20
    else if confidence ≥ 3 / 4 then 10
    else if confidence ≥ 1 / 2 then 5
    else 0
  | none => 0

/-- Monte Carlo flag contribution (lines 72-73). -/
def score_mc_part (receipt : Dict) : Int :=
  if check_monte_carlo receipt then 15 else 0

/-- Human verification contribution (lines 76-77). -/
def score_hv_part (receipt : Dict) : Int :=
  if check_human_verified receipt then 20 else 0

/-- The accumulated score of `compute_trust_score` before the cap: base 50
plus the five signal contributions, in source order. -/
def raw_trust_score (receipt : Dict) : Int :=
  50 + score_sources_part receipt + score_approver_part receipt +
    score_confidence_part receipt + score_mc_part receipt + score_hv_part receipt

/-- Embedding of `compute_trust_score` (lines 29-86): cap at 100, then the
defensive range check that emits an anomaly and raises `StopRule` when the
score is out of `[0,100]`. -/
def compute_trust_score (receipt : Dict) : List Emit × Except String Int :=
  let score := min 100 (raw_trust_score receipt)
  if score < 0 ∨ score > 100 then stoprule_trust_score_invalid score
  else ([], Except.ok score)

/-- Embedding of `get_trust_level` (lines 376-391). -/
def get_trust_level (score : Int) : String :=
  if score ≥ SCORE_GREEN_MIN then "GREEN"
  else if score ≥ SCORE_YELLOW_MIN then "YELLOW"
  else "RED"

/-- Exact mean of an integer score list (`statistics.mean`). -/
def listMeanInt (xs : List Int) : Rat := ((xs.sum : Int) : Rat) / (xs.length : Rat)

/-- The `domain_means` table of `check_trust_bias` (lines 329-332): one
mean per non-empty group, in iteration order. -/
def bias_means (scores_by_domain : List (String × List Int)) : List (String × Rat) :=
  scores_by_domain.filterMap
    (fun p => if p.2 ≠ [] then some (p.1, listMeanInt p.2) else none)

/-- The disparity `(max_mean - min_mean) / 100` computed by
`check_trust_bias` (lines 338-342); `0` for an empty mean table. -/
def bias_disparity (scores_by_domain : List (String × List Int)) : Rat :=
  match (bias_means scores_by_domain).map Prod.snd with
  | [] => 0
  | m :: ms => ((ms.foldl max m) - (ms.foldl min m)) / 100

/-- Embedding of `check_trust_bias` (lines 314-353): fewer than 2 groups,
or fewer than 2 non-empty groups, short-circuits to disparity 0; otherwise
the disparity is returned, and a bias record with `mitigation_action`
`"alert"` is emitted exactly when it reaches `BIAS_THRESHOLD`. -/
def check_trust_bias (scores_by_domain : List (String × List Int)) : List Emit × Rat :=
  if scores_by_domain.length < 2 then ([], 0)
  else
    let domain_means := bias_means scores_by_domain
    if domain_means.length < 2 then ([], 0)
    else
      match domain_means.map Prod.snd with
      | [] => ([], 0)
      | m :: ms =>
        let max_mean := ms.foldl max m
        let min_mean := ms.foldl min m
        let disparity := (max_mean - min_mean) / 100
        if disparity ≥ BIAS_THRESHOLD then
          ([emit_bias (domain_means.map Prod.fst) disparity BIAS_THRESHOLD "alert"],
           disparity)
        else ([], disparity)

/-! ## Traffic light renderer (`traffic_light.py`) -/

/-- `CRYPTO_TERMS` of `traffic_light.py`. -/
def CRYPTO_TERMS : List String :=
  ["sha256", "blake3", "merkle", "hash", "dual_hash", "payload_hash"]

/-- Embedding of `select_emoji` (lines 26-41). -/
def select_emoji (score : Int) : String :=
  if score ≥ SCORE_GREEN_MIN then "✅ 🟢"
  else if score ≥ SCORE_YELLOW_MIN then "⚠️ 🟡"
  else "❌ 🔴"

/-- Word count of Python `str.split()` with no separator: the number of
maximal non-whitespace runs.  (Implemented directly rather than through
`String.split`, whose well-founded recursion does not reduce in proofs.)
The boolean tracks whether the scan is inside a word. -/
def pyWordCountAux : Bool → List Char → Nat
  | _, [] => 0
  | inWord, c :: rest =>
    if Char.isWhitespace c then pyWordCountAux false rest
    else (if inWord then 0 else 1) + pyWordCountAux true rest

def pyWordCount (s : String) : Nat := pyWordCountAux false s.data

/-- Is `t` a substring of `s` (Python `t in s` on strings)? -/
def isPrefixChars : List Char → List Char → Bool
  | [], _ => true
  | _ :: _, [] => false
  | a :: as, b :: bs => a = b && isPrefixChars as bs

def hasSubChars (t : List Char) : List Char → Bool
  | [] => isPrefixChars t []
  | c :: rest => isPrefixChars t (c :: rest) || hasSubChars t rest

def strContainsSub (s t : String) : Bool := hasSubChars t.data s.data

/-- Truncation toward zero, Python `int()` on a float. -/
def pyTruncInt (q : Rat) : Int := if 0 ≤ q then q.floor else -((-q).floor)

/-- Embedding of `build_summary` (lines 44-89): the two summary lines. -/
def build_summary (receipt : Dict) : String × String :=
  let source_count := extract_sources receipt
  let approver := extract_approver receipt
  let confidence := extract_confidence receipt
  let monte_carlo := check_monte_carlo receipt
  let human_verified := check_human_verified receipt
  let source_text :=
    toString source_count ++ " source" ++ (if source_count ≠ 1 then "s" else "")
  let approver_text :=
    if optStrTruthy approver then (approver.getD "") ++ " approved"
    else "no approver assigned"
  let confidence_text :=
    match confidence with
    | some c => toString (pyTruncInt (c * 100)) ++ "% confidence"
    | none => "confidence unknown"
  let line_1 := "AI checked " ++ source_text ++ ", " ++ approver_text ++ ", " ++
    confidence_text ++ "."
  let line_2 :=
    if monte_carlo && human_verified then "Validated across scenarios and human-verified."
    else if monte_carlo then "Validated across simulation scenarios."
    else if human_verified then "Human-verified decision."
    else "Automated decision (unvalidated)."
  (line_1, line_2)

/-- Emission-then-raise of `stoprule_summary_too_long` (lines 162-180). -/
def stoprule_summary_too_long (word_count : Nat) : List Emit × Except String String :=
  ([emit_anomaly "summary_word_count" 50 (word_count : Rat) "violation" "halt"],
   Except.error ("Summary word count " ++ toString word_count ++
     " exceeds limit of 50 words"))

/-- Emission-then-raise of `stoprule_crypto_in_summary` (lines 183-201). -/
def stoprule_crypto_in_summary (term : String) : List Emit × Except String String :=
  ([emit_anomaly "crypto_in_summary" 0 1 "violation" "halt"],
   Except.error ("Crypto term \x27" ++ term ++
     "\x27 found in summary - forbidden for operator display"))

/-- Embedding of `render_traffic_light` (lines 92-132): build the display,
then validate the word count and the crypto-term ban, raising the halt
signal (after emitting its anomaly) on a violation. -/
def render_traffic_light (score : Int) (receipt : Dict) : List Emit × Except String String :=
  let emoji := select_emoji score
  let trust_level := get_trust_level score
  let (line_1, line_2) := build_summary receipt
  let output := "━━━━━━━━━━━━━━━━━━━━━━━━━━━━━━━━━━━━\n" ++
    emoji ++ " TRUST STATUS: " ++ trust_level ++ "\n\n" ++
    line_1 ++ "\n" ++ line_2 ++ "\n\nTrust Score: " ++ toString score ++
    "/100\n[View Full Receipt] ← Auditor drill-down\n━━━━━━━━━━━━━━━━━━━━━━━━━━━━━━━━━━━━"
  let summary_text := line_1 ++ " " ++ line_2
  let word_count := pyWordCount summary_text
  if word_count > 50 then stoprule_summary_too_long word_count
  else
    let summary_lower := asciiLower summary_text
    match CRYPTO_TERMS.find? (fun term => strContainsSub summary_lower term) with
    | some term => stoprule_crypto_in_summary term
    | none => ([], Except.ok output)

/-! ## Monte Carlo harness (`sim/sim.py`) -/

/-- The level thresholds at the end of `get_expected_level`
(lines 299-304); definitionally equal to `get_trust_level`. -/
def sim_level (score : Int) : String :=
  if score ≥ 85 then "GREEN"
  else if score ≥ 60 then "YELLOW"
  else "RED"

/-- Embedding of `get_expected_level` (lines 255-304), the harness's
independently coded expected-level reference.  It reads only the literal
`sources` list, `raci.accountable`, a raw `confidence` number and the two
unaliased flags; a non-sized `sources` value or a non-dict `raci` or a
truthy non-numeric `confidence` raises (the surrounding harness loop
catches it). -/
def get_expected_level (receipt : Dict) : Except String String :=
  match pyLen (dictGetD receipt "sources" (.vlist [])) with
  | none => Except.error "TypeError: object has no len"
  | some sourcesLen =>
  match dictGetD receipt "raci" (.vdict []) with
  | .vdict raci =>
    let has_approver := truthy (dictGetD raci "accountable" .vnull)
    let confidence := dictGetD receipt "confidence" .vnull
    let monte_carlo := truthy (dictGetD receipt "monte_carlo_validated" (.vbool false))
    let human_verified := truthy (dictGetD receipt "human_verified" (.vbool false))
    let s1 : Int :=
      if (sourcesLen : Int) ≥ 5 then 20
      else if (sourcesLen : Int) ≥ 3 then 10
      else if (sourcesLen : Int) ≥ 1 then 5
      else 0
    let s2 : Int := if has_approver then 25 else 0
    let s4 : Int := if monte_carlo then 15 else 0
    let s5 : Int := if human_verified then 20 else 0
    if truthy confidence then
      match numComparable confidence with
      | none => Except.error "TypeError: unorderable types"
      | some q =>
        let s3 : Int := if q ≥ 9 / 10 then 20 else if q ≥ 3 / 4 then 10 else if q ≥ 1 / 2 then 5 else 0
        Except.ok (sim_level (min 100 (50 + s1 + s2 + s3 + s4 + s5)))
    else
      Except.ok (sim_level (min 100 (50 + s1 + s2 + 0 + s4 + s5)))
  | _ => Except.error "AttributeError: object has no attribute get"

/-- The shape of a well-formed synthetic receipt built by
`generate_test_receipt` (lines 70-84), with the random draws as
parameters: the `raci` block is present exactly when an approver was
drawn, the `confidence` field exactly when a truthy confidence was
drawn. -/
def generated_receipt (ts decision_id : String) (sources : List Value)
    (monte_carlo human_verified : Bool)
    (approver : Option String) (confidence : Option Rat) : Dict :=
  [("receipt_type", .vstr "decision"),
   ("ts", .vstr ts),
   ("tenant_id", .vstr "default"),
   ("decision_id", .vstr decision_id),
   ("sources", .vlist sources),
   ("monte_carlo_validated", .vbool monte_carlo),
   ("human_verified", .vbool human_verified)] ++
  (match approver with
   | some a => [("raci", .vdict [("accountable", .vstr a)])]
   | none => []) ++
  (match confidence with
   | some q => [("confidence", .vfloat q)]
   | none => [])

/-- The per-receipt counters of `SimState` touched by the scoring/render
step of `run_scenario` (the remaining `SimState` fields are not read or
written by that step). -/
structure HarnessCounters where
  receipts_processed : Nat
  receipts_emitted : Nat
  crashes : Nat
  violations : List String
  correct_scores : Nat
  total_scores : Nat

def harness_init : HarnessCounters := ⟨0, 0, 0, [], 0, 0⟩

/-- The body of the inner `try` of `run_scenario` (lines 181-199): score,
count, compare against the expected-level reference, render.  The third
component is the exception escaping the body, if any; counter updates made
before the raise persist, as they do in Python. -/
def sim_receipt_body (receipt : Dict) (st : HarnessCounters) :
    List Emit × HarnessCounters × Option String :=
  match compute_trust_score receipt with
  | (tr, Except.error e) => (tr, st, some e)
  | (tr, Except.ok score) =>
    let st1 := {st with receipts_processed := st.receipts_processed + 1}
    match get_expected_level receipt with
    | Except.error e => (tr, st1, some e)
    | Except.ok expected_level =>
      let actual_level := get_trust_level score
      let st2 :=
        if expected_level = actual_level then
          {st1 with correct_scores := st1.correct_scores + 1}
        else st1
      let st3 := {st2 with total_scores := st2.total_scores + 1}
      match render_traffic_light score receipt with
      | (tr2, Except.error e) => (tr ++ tr2, st3, some e)
      | (tr2, Except.ok _) =>
        (tr ++ tr2, {st3 with receipts_emitted := st3.receipts_emitted + 1}, none)

/-- The inner `try`/`except Exception` of `run_scenario` (lines 181-202):
any exception escaping the body — `StopRule` included, since `StopRule`
subclasses `Exception` — is converted into a crash count and a violation
message, and the loop continues. -/
def sim_score_and_render (cycle : Nat) (receipt : Dict) (st : HarnessCounters) :
    List Emit × HarnessCounters :=
  match sim_receipt_body receipt st with
  | (tr, st1, none) => (tr, st1)
  | (tr, st1, some e) =>
    (tr, {st1 with crashes := st1.crashes + 1,
                   violations := st1.violations ++
                     ["Crash at cycle " ++ toString cycle ++ ": " ++ e]})

/-! ## Score bound lemmas -/

lemma score_sources_part_bounds (r : Dict) :
    0 ≤ score_sources_part r ∧ score_sources_part r ≤ 20 := by
  unfold score_sources_part
  dsimp only
  split_ifs <;> omega

lemma score_approver_part_bounds (r : Dict) :
    0 ≤ score_approver_part r ∧ score_approver_part r ≤ 25 := by
  unfold score_approver_part
  split_ifs <;> omega

lemma score_confidence_part_bounds (r : Dict) :
    0 ≤ score_confidence_part r ∧ score_confidence_part r ≤ 20 := by
  unfold score_confidence_part
  cases h : extract_confidence r with
  | none => simp
  | some c => simp only []; split_ifs <;> omega

lemma score_mc_part_bounds (r : Dict) :
    0 ≤ score_mc_part r ∧ score_mc_part r ≤ 15 := by
  unfold score_mc_part
  split_ifs <;> omega

lemma score_hv_part_bounds (r : Dict) :
    0 ≤ score_hv_part r ∧ score_hv_part r ≤ 20 := by
  unfold score_hv_part
  split_ifs <;> omega

lemma raw_trust_score_bounds (r : Dict) :
    50 ≤ raw_trust_score r ∧ raw_trust_score r ≤ 150 := by
  have h1 := score_sources_part_bounds r
  have h2 := score_approver_part_bounds r
  have h3 := score_confidence_part_bounds r
  have h4 := score_mc_part_bounds r
  have h5 := score_hv_part_bounds r
  unfold raw_trust_score
  omega

/-- The capped score is in `[50, 100]` and the defensive branch of
`compute_trust_score` is not taken: no anomaly is emitted and no
`StopRule` is raised. -/
lemma compute_trust_score_eq (r : Dict) :
    compute_trust_score r = ([], Except.ok (min 100 (raw_trust_score r))) := by
  have h := raw_trust_score_bounds r
  unfold compute_trust_score
  have hrange : ¬(min 100 (raw_trust_score r) < 0 ∨ min 100 (raw_trust_score r) > 100) := by
    omega
  simp only [hrange, if_false]

lemma capped_trust_score_bounds (r : Dict) :
    50 ≤ min 100 (raw_trust_score r) ∧ min 100 (raw_trust_score r) ≤ 100 := by
  have h := raw_trust_score_bounds r
  omega

/-! ## Claims -/

/-- Claim C2: for every receipt dict, whatever the combination of
recognized, unrecognized or mistyped fields, `compute_trust_score`
returns an integer score with `0 ≤ score ≤ 100` (and no error). -/
theorem claim_C2 (r : Dict) :
    ∃ s : Int, (compute_trust_score r).2 = Except.ok s ∧ 0 ≤ s ∧ s ≤ 100 := by
  refine ⟨min 100 (raw_trust_score r), ?_, ?_, ?_⟩
  · rw [compute_trust_score_eq]
  · have := capped_trust_score_bounds r; omega
  · have := capped_trust_score_bounds r; omega

/-- Claim C10: for every receipt dict, `compute_trust_score` returns a
score in `[50, 100]` with an empty emission trace: the base is 50, every
signal contribution is non-negative, the sum is capped at 100 before the
range check, and so the defensive out-of-range branch (with its anomaly
emission and halt signal) is unreachable within the scorer. -/
theorem claim_C10 (r : Dict) :
    ∃ s : Int, compute_trust_score r = ([], Except.ok s) ∧ 50 ≤ s ∧ s ≤ 100 := by
  refine ⟨min 100 (raw_trust_score r), compute_trust_score_eq r, ?_, ?_⟩
  · have := capped_trust_score_bounds r; omega
  · have := capped_trust_score_bounds r; omega

/-- Claim C7: a receipt with no recognized fields yields exactly the base
score 50, with no emission and no error. -/
theorem claim_C7 : compute_trust_score [] = ([], Except.ok 50) := rfl

/-- Claim C6: when the durable ledger append fails with an I/O error,
`emit_receipt` does not raise: it returns `Except.ok` with the warning
reported to the diagnostic channel, no ledger line written, and the very
record that a successful append would have returned. -/
theorem claim_C6 (receipt_type ts : String) (data : Dict) :
    emit_receipt_attempt receipt_type ts data false =
      Except.ok ⟨emit_receipt_record receipt_type ts data,
                 jsonDumps (.vdict (emit_receipt_record receipt_type ts data)),
                 none, true⟩
    ∧ (emit_receipt_attempt receipt_type ts data false).map EmitOutcome.record =
        (emit_receipt_attempt receipt_type ts data true).map EmitOutcome.record := by
  exact ⟨rfl, rfl⟩

/-- Claim C8: `merkle` of the empty sequence is the dual hash of the fixed
sentinel literal `"empty"` — which differs from the fingerprint of zero
bytes — and differs from `merkle [{}]`; one level of the (pure,
deterministic) tree construction pads an odd level by duplicating the last
fingerprint before pairwise combination. -/
theorem claim_C8 :
    merkle [] = dual_hash "empty"
    ∧ dual_hash "empty" ≠ dual_hash ""
    ∧ merkle [] ≠ merkle [Value.vdict []]
    ∧ ∀ h1 h2 h3 : String,
        merkle_level [h1, h2, h3] = [dual_hash (h1 ++ h2), dual_hash (h3 ++ h3)] := by
  refine ⟨rfl, ?_, ?_, fun h1 h2 h3 => ?_⟩
  · decide
  · decide
  · simp [merkle_level, merkle_hash_pairs]

/-! ## Association-list lemmas for the record merge -/

lemma dictGet_dictSet (d : Dict) (k : String) (v : Value) (k2 : String) :
    dictGet? (dictSet d k v) k2 = if k = k2 then some v else dictGet? d k2 := by
  induction d with
  | nil => simp [dictSet, dictGet?]
  | cons hd tl ih =>
    obtain ⟨k1, v1⟩ := hd
    by_cases h1 : k1 = k <;> by_cases h2 : k1 = k2 <;> by_cases h3 : k = k2 <;>
      simp_all [dictSet, dictGet?]

lemma dictGet_merge_notin : ∀ (u b : Dict) (k : String),
    k ∉ u.map Prod.fst → dictGet? (dictMerge b u) k = dictGet? b k := by
  intro u
  induction u with
  | nil => intro b k _; rfl
  | cons hd tl ih =>
    intro b k h
    have h1 : ¬ hd.1 = k := fun heq => h (by simp [heq])
    have h2 : k ∉ tl.map Prod.fst := fun hm => h (by simp [hm])
    show dictGet? (dictMerge (dictSet b hd.1 hd.2) tl) k = dictGet? b k
    rw [ih _ _ h2, dictGet_dictSet, if_neg h1]

lemma dictGet_merge_mem : ∀ (u b : Dict) (k : String) (v : Value),
    (u.map Prod.fst).Nodup → dictGet? u k = some v →
    dictGet? (dictMerge b u) k = some v := by
  intro u
  induction u with
  | nil => intro b k v _ h; simp [dictGet?] at h
  | cons hd tl ih =>
    intro b k v hnd h
    obtain ⟨k1, v1⟩ := hd
    simp only [dictGet?] at h
    by_cases h1 : k1 = k
    · rw [if_pos h1] at h
      subst h1
      simp only [List.map_cons] at hnd
      have hparts := List.nodup_cons.mp hnd
      show dictGet? (dictMerge (dictSet b k1 v1) tl) k1 = some v
      rw [dictGet_merge_notin _ _ _ hparts.1, dictGet_dictSet, if_pos rfl]
      exact h
    · rw [if_neg h1] at h
      simp only [List.map_cons] at hnd
      exact ih _ _ _ (List.nodup_cons.mp hnd).2 h

lemma dictGet_isSome_of_mem : ∀ (u : Dict) (k : String),
    k ∈ u.map Prod.fst → (dictGet? u k).isSome := by
  intro u
  induction u with
  | nil => intro k h; simp at h
  | cons hd tl ih =>
    intro k h
    simp only [dictGet?]
    by_cases h1 : hd.1 = k
    · rw [if_pos h1]; rfl
    · rw [if_neg h1]
      apply ih
      simp only [List.map_cons] at h
      rcases List.mem_cons.mp h with heq | hm
      · exact absurd heq.symm h1
      · exact hm

lemma dictGet_merge_domain : ∀ (u b : Dict) (k : String),
    (dictGet? (dictMerge b u) k).isSome →
    (dictGet? b k).isSome ∨ k ∈ u.map Prod.fst := by
  intro u
  induction u with
  | nil => intro b k h; exact Or.inl h
  | cons hd tl ih =>
    intro b k h
    rcases ih (dictSet b hd.1 hd.2) k h with hb | htl
    · rw [dictGet_dictSet] at hb
      by_cases h1 : hd.1 = k
      · exact Or.inr (by simp [h1])
      · rw [if_neg h1] at hb; exact Or.inl hb
    · exact Or.inr (by simp [htl])

/-- Claim C4 (amended): for payloads that do not themselves use the
reserved metadata keys (`receipt_type`, `ts`, `payload_hash`), the emitted
record carries the given record type, the emission timestamp, the payload
tenant (defaulting to `"default"`), and a `payload_hash` that dual-hashes
the canonical serialization of the payload only; all payload fields are
merged at top level and no other keys appear.  Because the `**data` merge
comes last in the dict literal, a payload that does use a reserved key
overrides the metadata field (see the counterexample). -/
theorem claim_C4 (receipt_type ts : String) (data : Dict)
    (hnd : (data.map Prod.fst).Nodup)
    (h1 : "receipt_type" ∉ data.map Prod.fst)
    (h2 : "ts" ∉ data.map Prod.fst)
    (h3 : "payload_hash" ∉ data.map Prod.fst) :
    dictGet? (emit_receipt_record receipt_type ts data) "receipt_type" =
      some (.vstr receipt_type)
    ∧ dictGet? (emit_receipt_record receipt_type ts data) "ts" = some (.vstr ts)
    ∧ dictGet? (emit_receipt_record receipt_type ts data) "tenant_id" =
        some (dictGetD data "tenant_id" (.vstr "default"))
    ∧ dictGet? (emit_receipt_record receipt_type ts data) "payload_hash" =
        some (.vstr (dual_hash (jsonDumps (.vdict data))))
    ∧ (∀ k v, dictGet? data k = some v →
        dictGet? (emit_receipt_record receipt_type ts data) k = some v)
    ∧ (∀ k, (dictGet? (emit_receipt_record receipt_type ts data) k).isSome →
        k = "receipt_type" ∨ k = "ts" ∨ k = "tenant_id" ∨ k = "payload_hash"
          ∨ k ∈ data.map Prod.fst) := by
  unfold emit_receipt_record
  refine ⟨?_, ?_, ?_, ?_, ?_, ?_⟩
  · rw [dictGet_merge_notin _ _ _ h1]; rfl
  · rw [dictGet_merge_notin _ _ _ h2]; rfl
  · cases hten : dictGet? data "tenant_id" with
    | some v =>
      rw [dictGet_merge_mem _ _ _ _ hnd hten]
      simp [dictGetD, hten]
    | none =>
      have hnotin : "tenant_id" ∉ data.map Prod.fst := fun hm => by
        have hs := dictGet_isSome_of_mem data _ hm
        rw [hten] at hs
        exact absurd hs (by simp)
      rw [dictGet_merge_notin _ _ _ hnotin]; rfl
  · rw [dictGet_merge_notin _ _ _ h3]; rfl
  · intro k v hkv
    exact dictGet_merge_mem _ _ _ _ hnd hkv
  · intro k hk
    rcases dictGet_merge_domain _ _ _ hk with hb | hm
    · simp only [dictGet?] at hb
      split_ifs at hb with e1 e2 e3 e4
      · exact Or.inl e1.symm
      · exact Or.inr (Or.inl e2.symm)
      · exact Or.inr (Or.inr (Or.inl e3.symm))
      · exact Or.inr (Or.inr (Or.inr (Or.inl e4.symm)))
      · simp at hb
    · exact Or.inr (Or.inr (Or.inr (Or.inr hm)))

/-- Claim C4, counterexample to the claim as stated: because `**data` is
merged over the metadata fields, a payload containing its own
`receipt_type` overrides the `record_type` argument — the emitted record
does not carry a `receipt_type` equal to the given argument. -/
theorem claim_C4_counterexample :
    dictGet? (emit_receipt_record "real" "2025-01-04T00:00:00Z"
        [("receipt_type", Value.vstr "spoof")]) "receipt_type" =
      some (Value.vstr "spoof")
    ∧ Value.vstr "spoof" ≠ Value.vstr "real" := by
  constructor
  · rfl
  · intro h
    injection h with h2
    exact absurd h2 (by decide)

/-- Claim C4, witness: the amended statement applied to a concrete
reserved-key-free payload. -/
theorem claim_C4_witness :
    dictGet? (emit_receipt_record "trustchain_trust_score" "2025-01-04T12:00:00Z"
        [("decision_id", Value.vstr "d1")]) "receipt_type" =
      some (Value.vstr "trustchain_trust_score")
    ∧ dictGet? (emit_receipt_record "trustchain_trust_score" "2025-01-04T12:00:00Z"
        [("decision_id", Value.vstr "d1")]) "tenant_id" =
      some (Value.vstr "default") := by
  have h := claim_C4 "trustchain_trust_score" "2025-01-04T12:00:00Z"
    [("decision_id", Value.vstr "d1")] (by decide) (by decide) (by decide) (by decide)
  exact ⟨h.1, by rw [h.2.2.1]; rfl⟩

/-- Claim C3 (amended): confidence is read from the top-level `confidence`
field first; there a `float()`-convertible value in `[0,1]` is used
directly and one in `(1,100]` is divided by 100, while an out-of-range or
non-convertible value falls through to the `payload.confidence` fallback —
which accepts only values already in `[0,1]` and has no percentage
normalization.  An absent or non-numeric field contributes nothing, and
the score contribution is +20/+10/+5 at the 0.90/0.75/0.50 thresholds. -/
theorem claim_C3 :
    (∀ q : Rat, 0 ≤ q → q ≤ 1 →
      extract_confidence [("confidence", Value.vfloat q)] = some q
      ∧ extract_confidence [("payload", Value.vdict [("confidence", Value.vfloat q)])] =
          some q)
    ∧ (∀ q : Rat, 1 < q → q ≤ 100 →
      extract_confidence [("confidence", Value.vfloat q)] = some (q / 100)
      ∧ extract_confidence [("payload", Value.vdict [("confidence", Value.vfloat q)])] =
          none)
    ∧ (∀ q c : Rat, (q < 0 ∨ 100 < q) → 0 ≤ c → c ≤ 1 →
      extract_confidence [("confidence", Value.vfloat q),
        ("payload", Value.vdict [("confidence", Value.vfloat c)])] = some c)
    ∧ extract_confidence [] = none
    ∧ extract_confidence [("confidence", Value.vstr "not a number")] = none
    ∧ (∀ r : Dict, score_confidence_part r =
        match extract_confidence r with
        | some confidence =>
          if confidence ≥ 9 / 10 then 20
          else if confidence ≥ 3 / 4 then 10
          else if confidence ≥ 1 / 2 then 5
          else 0
        | none => 0) := by
  refine ⟨?_, ?_, ?_, rfl, rfl, fun r => rfl⟩
  · intro q h0 h1
    constructor
    · simp [extract_confidence, dictGet?, dictGetD, pyFloat, h0, h1]
    · simp [extract_confidence, dictGet?, dictGetD, pyFloat, h0, h1]
  · intro q hgt hle
    have hn : ¬ (0 ≤ q ∧ q ≤ 1) := by rintro ⟨ha, hb⟩; linarith
    have hp : 0 ≤ q ∧ q ≤ 100 := ⟨by linarith, hle⟩
    have hq1 : ¬ q ≤ 1 := by linarith
    constructor
    · simp [extract_confidence, dictGet?, dictGetD, pyFloat, hn, hp, hq1]
    · simp [extract_confidence, dictGet?, dictGetD, pyFloat, hn]
  · intro q c hq h0 h1
    have hn : ¬ (0 ≤ q ∧ q ≤ 1) := by rintro ⟨ha, hb⟩; rcases hq with h | h <;> linarith
    have hn2 : ¬ (0 ≤ q ∧ q ≤ 100) := by rintro ⟨ha, hb⟩; rcases hq with h | h <;> linarith
    simp [extract_confidence, dictGet?, dictGetD, pyFloat, hn, hn2, h0, h1]

/-- Claim C3, counterexample to the claim as stated: a payload-level
confidence of 95 would, per the claim, be normalized to 0.95 and score
+20 (total 70); the code's payload fallback has no percentage branch, so
extraction yields nothing and the receipt scores the bare 50. -/
theorem claim_C3_counterexample :
    extract_confidence [("payload", Value.vdict [("confidence", Value.vint 95)])] = none
    ∧ extract_confidence [("payload", Value.vdict [("confidence", Value.vint 95)])] ≠
        some (95 / 100)
    ∧ compute_trust_score [("payload", Value.vdict [("confidence", Value.vint 95)])] =
        ([], Except.ok 50) := by
  refine ⟨rfl, ?_, rfl⟩
  intro h
  have hnone : extract_confidence
      [("payload", Value.vdict [("confidence", Value.vint 95)])] = none := rfl
  rw [hnone] at h
  exact Option.noConfusion h

/-- Claim C3, witness: the amended percentage clause instantiated at a
top-level confidence of 95 (accepted, normalized to 0.95) and a
payload-level confidence of 95 (rejected). -/
theorem claim_C3_witness :
    extract_confidence [("confidence", Value.vfloat 95)] = some (95 / 100)
    ∧ extract_confidence [("payload", Value.vdict [("confidence", Value.vfloat 95)])] =
        none :=
  claim_C3.2.1 95 (by norm_num) (by norm_num)

/-- Claim C9: with fewer than two non-empty groups `check_trust_bias`
returns disparity 0 and emits nothing; otherwise it returns
`(max mean - min mean) / 100` and emits exactly one bias record with
mitigation action `"alert"` iff the disparity reaches the 0.005 threshold;
the two concrete spec examples behave as stated. -/
theorem claim_C9 :
    (∀ g : List (String × List Int),
      (bias_means g).length < 2 → check_trust_bias g = ([], 0))
    ∧ (∀ g : List (String × List Int), 2 ≤ (bias_means g).length →
        check_trust_bias g =
          (if bias_disparity g ≥ BIAS_THRESHOLD then
             [emit_bias ((bias_means g).map Prod.fst) (bias_disparity g)
                BIAS_THRESHOLD "alert"]
           else [], bias_disparity g))
    ∧ BIAS_THRESHOLD = 1 / 200
    ∧ check_trust_bias [("a", [90, 85, 92]), ("b", [60, 65, 58])] =
        ([emit_bias ["a", "b"] (7 / 25) BIAS_THRESHOLD "alert"], 7 / 25)
    ∧ ((7 : Rat) / 25 ≥ BIAS_THRESHOLD)
    ∧ check_trust_bias [("a", [80, 82, 78]), ("b", [79, 81, 80])] = ([], 0)
    ∧ ((0 : Rat) < BIAS_THRESHOLD) := by
  have hshort : ∀ g : List (String × List Int),
      (bias_means g).length < 2 → check_trust_bias g = ([], 0) := by
    intro g h
    unfold check_trust_bias
    by_cases hg : g.length < 2
    · rw [if_pos hg]
    · rw [if_neg hg]
      dsimp only
      rw [if_pos h]
  have hmain : ∀ g : List (String × List Int), 2 ≤ (bias_means g).length →
      check_trust_bias g =
        (if bias_disparity g ≥ BIAS_THRESHOLD then
           [emit_bias ((bias_means g).map Prod.fst) (bias_disparity g)
              BIAS_THRESHOLD "alert"]
         else [], bias_disparity g) := by
    intro g h
    have hle : (bias_means g).length ≤ g.length := by
      unfold bias_means
      exact List.length_filterMap_le _ _
    have hg : ¬ g.length < 2 := by omega
    have hm2 : ¬ (bias_means g).length < 2 := by omega
    unfold check_trust_bias
    rw [if_neg hg]
    dsimp only
    rw [if_neg hm2]
    rcases hm : (bias_means g).map Prod.snd with _ | ⟨m, ms⟩
    · exfalso
      have h0 : (bias_means g).length = 0 := by simpa using congrArg List.length hm
      omega
    · unfold bias_disparity
      rw [hm]
      dsimp only
      split_ifs <;> rfl
  have hbmA : bias_means [("a", [(90 : Int), 85, 92]), ("b", [(60 : Int), 65, 58])] =
      [("a", 89), ("b", 61)] := by
    simp [bias_means, listMeanInt]
    norm_num
  have hbmB : bias_means [("a", [(80 : Int), 82, 78]), ("b", [(79 : Int), 81, 80])] =
      [("a", 80), ("b", 80)] := by
    simp [bias_means, listMeanInt]
    norm_num
  have hdA : bias_disparity [("a", [(90 : Int), 85, 92]), ("b", [(60 : Int), 65, 58])] =
      7 / 25 := by
    rw [bias_disparity, hbmA]
    norm_num [max_def, min_def]
  have hdB : bias_disparity [("a", [(80 : Int), 82, 78]), ("b", [(79 : Int), 81, 80])] =
      0 := by
    rw [bias_disparity, hbmB]
    norm_num [max_def, min_def]
  refine ⟨hshort, hmain, rfl, ?_, ?_, ?_, ?_⟩
  · rw [hmain _ (by rw [hbmA]; norm_num), hdA, hbmA]
    rw [if_pos (by norm_num [BIAS_THRESHOLD])]
    simp
  · norm_num [BIAS_THRESHOLD]
  · rw [hmain _ (by rw [hbmB]; norm_num), hdB, hbmB]
    rw [if_neg (by norm_num [BIAS_THRESHOLD])]
  · norm_num [BIAS_THRESHOLD]

/-- Claim C9, witness: the short-circuit clause applied to a mapping with
only one non-empty group. -/
theorem claim_C9_witness :
    check_trust_bias [("a", ([] : List Int)), ("b", [50])] = ([], 0) :=
  claim_C9.1 _ (by decide)

/-- Claim C5 (amended): the halt signal is raised only after the
corresponding anomaly record has been emitted — the stoprule emitters put
an `anomaly` record with action `"halt"` in the trace before erroring —
and the scorer and the stoprules themselves never suppress it; but
`StopRule` subclasses `Exception`, and the Monte Carlo harness loop
catches `Exception`: any exception escaping the per-receipt body,
`StopRule` included, is absorbed into a crash count and a violation
message, and is not propagated to the process boundary. -/
theorem claim_C5 :
    (∀ score : Int,
      (∃ m, (stoprule_trust_score_invalid score).2 = Except.error m)
      ∧ ∃ ev ∈ (stoprule_trust_score_invalid score).1,
          ev.rtype = "anomaly"
          ∧ dictGet? ev.payload "metric" = some (.vstr "trust_score_range")
          ∧ dictGet? ev.payload "classification" = some (.vstr "violation")
          ∧ dictGet? ev.payload "action" = some (.vstr "halt"))
    ∧ (∀ term : String,
      (∃ m, (stoprule_crypto_in_summary term).2 = Except.error m)
      ∧ ∃ ev ∈ (stoprule_crypto_in_summary term).1,
          ev.rtype = "anomaly"
          ∧ dictGet? ev.payload "metric" = some (.vstr "crypto_in_summary")
          ∧ dictGet? ev.payload "action" = some (.vstr "halt"))
    ∧ (∀ (cycle : Nat) (receipt : Dict) (st : HarnessCounters)
         (tr : List Emit) (st1 : HarnessCounters) (e : String),
        sim_receipt_body receipt st = (tr, st1, some e) →
        sim_score_and_render cycle receipt st =
          (tr, {st1 with crashes := st1.crashes + 1,
                         violations := st1.violations ++
                           ["Crash at cycle " ++ toString cycle ++ ": " ++ e]})) := by
  refine ⟨?_, ?_, ?_⟩
  · intro score
    exact ⟨⟨_, rfl⟩,
      ⟨emit_anomaly "trust_score_range" 50 (score : Rat) "violation" "halt",
       by simp [stoprule_trust_score_invalid], rfl, rfl, rfl, rfl⟩⟩
  · intro term
    exact ⟨⟨_, rfl⟩,
      ⟨emit_anomaly "crypto_in_summary" 0 1 "violation" "halt",
       by simp [stoprule_crypto_in_summary], rfl, rfl, rfl⟩⟩
  · intro cycle receipt st tr st1 e h
    unfold sim_score_and_render
    rw [h]

/-- Claim C5, counterexample to the claim as stated: on the receipt
`{"approver": "hash"}` the renderer raises the halt signal (its summary
contains the forbidden term `hash`), and the harness loop — far from
propagating it — catches it, records one crash with a violation message,
and returns normally. -/
theorem claim_C5_counterexample :
    (render_traffic_light 65 [("approver", Value.vstr "hash")]).2 =
      Except.error
        "Crypto term \x27hash\x27 found in summary - forbidden for operator display"
    ∧ (sim_score_and_render 0 [("approver", Value.vstr "hash")] harness_init).2.crashes = 1
    ∧ (sim_score_and_render 0 [("approver", Value.vstr "hash")] harness_init).2.violations =
        ["Crash at cycle 0: Crypto term \x27hash\x27 found in summary - forbidden for operator display"] := by
  exact ⟨rfl, rfl, rfl⟩

/-- Claim C5, witness: the harness-absorption clause applied to the
concrete receipt `{"approver": "merkle"}`, whose rendering raises the
halt signal inside the loop body. -/
theorem claim_C5_witness :
    sim_score_and_render 3 [("approver", Value.vstr "merkle")] harness_init =
      ([emit_anomaly "crypto_in_summary" 0 1 "violation" "halt"],
       { receipts_processed := 1, receipts_emitted := 0, crashes := 1,
         violations := ["Crash at cycle 3: Crypto term \x27merkle\x27 found in summary - forbidden for operator display"],
         correct_scores := 0, total_scores := 1 }) := by
  have hbody : sim_receipt_body [("approver", Value.vstr "merkle")] harness_init =
      ([emit_anomaly "crypto_in_summary" 0 1 "violation" "halt"],
       { receipts_processed := 1, receipts_emitted := 0, crashes := 0,
         violations := [], correct_scores := 0, total_scores := 1 },
       some "Crypto term \x27merkle\x27 found in summary - forbidden for operator display") := rfl
  exact claim_C5.2.2 3 _ _ _ _ _ hbody

/-- Claim C1 (amended): on receipts of the shape the harness generates —
`sources` given as a literal list, an approver only ever via a
`raci.accountable` dict entry with a non-empty name, a confidence that is
absent or a number in `[0,1]`, the flags under their unaliased names, and
no `payload` nesting or `source_count` field — the independently coded
expected-level reference agrees with `get_trust_level ∘
compute_trust_score`.  On arbitrary receipts the two diverge, because
`get_expected_level` ignores `source_count`, the direct `approver` field,
the percentage form of confidence, the flag aliases and every `payload`
fallback (see the counterexample). -/
theorem claim_C1 (ts decision_id : String) (sources : List Value)
    (monte_carlo human_verified : Bool)
    (approver : Option String) (confidence : Option Rat)
    (happr : ∀ a, approver = some a → a ≠ "")
    (hconf : ∀ q, confidence = some q → 0 ≤ q ∧ q ≤ 1) :
    ∃ s : Int,
      compute_trust_score (generated_receipt ts decision_id sources
          monte_carlo human_verified approver confidence) = ([], Except.ok s)
      ∧ get_expected_level (generated_receipt ts decision_id sources
          monte_carlo human_verified approver confidence) =
          Except.ok (get_trust_level s) := by
  rcases approver with _ | a
  · rcases confidence with _ | q
    · refine ⟨_, compute_trust_score_eq _, ?_⟩
      have hraw : raw_trust_score
          (generated_receipt ts decision_id sources monte_carlo human_verified none none) =
          50 + (if (sources.length : Int) ≥ 5 then 20
                else if (sources.length : Int) ≥ 3 then 10
                else if (sources.length : Int) ≥ 1 then 5 else 0)
            + 0 + 0 + (if monte_carlo then 15 else 0)
            + (if human_verified then 20 else 0) := by
        simp [raw_trust_score, score_sources_part, score_approver_part,
          score_confidence_part, score_mc_part, score_hv_part, extract_sources,
          extract_approver, approver_at, extract_confidence, has_raci_chain,
          check_monte_carlo, check_human_verified, optStrTruthy, generated_receipt,
          dictGet?, dictGetD, truthy, asInt, pyFloat]
      rw [hraw]
      simp [get_expected_level, generated_receipt, dictGet?, dictGetD, truthy, pyLen,
        numComparable, sim_level, get_trust_level, SCORE_GREEN_MIN, SCORE_YELLOW_MIN]
    · obtain ⟨hq0, hq1⟩ := hconf q rfl
      refine ⟨_, compute_trust_score_eq _, ?_⟩
      by_cases hq : q = 0
      · subst hq
        have hraw : raw_trust_score (generated_receipt ts decision_id sources
            monte_carlo human_verified none (some 0)) =
            50 + (if (sources.length : Int) ≥ 5 then 20
                  else if (sources.length : Int) ≥ 3 then 10
                  else if (sources.length : Int) ≥ 1 then 5 else 0)
              + 0 + 0 + (if monte_carlo then 15 else 0)
              + (if human_verified then 20 else 0) := by
          simp [raw_trust_score, score_sources_part, score_approver_part,
            score_confidence_part, score_mc_part, score_hv_part, extract_sources,
            extract_approver, approver_at, extract_confidence, has_raci_chain,
            check_monte_carlo, check_human_verified, optStrTruthy, generated_receipt,
            dictGet?, dictGetD, truthy, asInt, pyFloat]
          norm_num
        rw [hraw]
        simp [get_expected_level, generated_receipt, dictGet?, dictGetD, truthy, pyLen,
          numComparable, sim_level, get_trust_level, SCORE_GREEN_MIN, SCORE_YELLOW_MIN]
      · have hraw : raw_trust_score (generated_receipt ts decision_id sources
            monte_carlo human_verified none (some q)) =
            50 + (if (sources.length : Int) ≥ 5 then 20
                  else if (sources.length : Int) ≥ 3 then 10
                  else if (sources.length : Int) ≥ 1 then 5 else 0)
              + 0
              + (if q ≥ 9 / 10 then 20 else if q ≥ 3 / 4 then 10
                 else if q ≥ 1 / 2 then 5 else 0)
              + (if monte_carlo then 15 else 0)
              + (if human_verified then 20 else 0) := by
          simp [raw_trust_score, score_sources_part, score_approver_part,
            score_confidence_part, score_mc_part, score_hv_part, extract_sources,
            extract_approver, approver_at, extract_confidence, has_raci_chain,
            check_monte_carlo, check_human_verified, optStrTruthy, generated_receipt,
            dictGet?, dictGetD, truthy, asInt, pyFloat, hq0, hq1]
        rw [hraw]
        simp [get_expected_level, generated_receipt, dictGet?, dictGetD, truthy, pyLen,
          numComparable, sim_level, get_trust_level, SCORE_GREEN_MIN, SCORE_YELLOW_MIN, hq]
  · have ha : a ≠ "" := happr a rfl
    rcases confidence with _ | q
    · refine ⟨_, compute_trust_score_eq _, ?_⟩
      have hraw : raw_trust_score (generated_receipt ts decision_id sources
          monte_carlo human_verified (some a) none) =
          50 + (if (sources.length : Int) ≥ 5 then 20
                else if (sources.length : Int) ≥ 3 then 10
                else if (sources.length : Int) ≥ 1 then 5 else 0)
            + 25 + 0 + (if monte_carlo then 15 else 0)
            + (if human_verified then 20 else 0) := by
        simp [raw_trust_score, score_sources_part, score_approver_part,
          score_confidence_part, score_mc_part, score_hv_part, extract_sources,
          extract_approver, approver_at, extract_confidence, has_raci_chain,
          check_monte_carlo, check_human_verified, optStrTruthy, generated_receipt,
          dictGet?, dictGetD, truthy, asInt, pyFloat, pyStr, ha]
      rw [hraw]
      simp [get_expected_level, generated_receipt, dictGet?, dictGetD, truthy, pyLen,
        numComparable, sim_level, get_trust_level, SCORE_GREEN_MIN, SCORE_YELLOW_MIN, ha]
    · obtain ⟨hq0, hq1⟩ := hconf q rfl
      refine ⟨_, compute_trust_score_eq _, ?_⟩
      by_cases hq : q = 0
      · subst hq
        have hraw : raw_trust_score (generated_receipt ts decision_id sources
            monte_carlo human_verified (some a) (some 0)) =
            50 + (if (sources.length : Int) ≥ 5 then 20
                  else if (sources.length : Int) ≥ 3 then 10
                  else if (sources.length : Int) ≥ 1 then 5 else 0)
              + 25 + 0 + (if monte_carlo then 15 else 0)
              + (if human_verified then 20 else 0) := by
          simp [raw_trust_score, score_sources_part, score_approver_part,
            score_confidence_part, score_mc_part, score_hv_part, extract_sources,
            extract_approver, approver_at, extract_confidence, has_raci_chain,
            check_monte_carlo, check_human_verified, optStrTruthy, generated_receipt,
            dictGet?, dictGetD, truthy, asInt, pyFloat, pyStr, ha]
          norm_num
        rw [hraw]
        simp [get_expected_level, generated_receipt, dictGet?, dictGetD, truthy, pyLen,
          numComparable, sim_level, get_trust_level, SCORE_GREEN_MIN, SCORE_YELLOW_MIN, ha]
      · have hraw : raw_trust_score (generated_receipt ts decision_id sources
            monte_carlo human_verified (some a) (some q)) =
            50 + (if (sources.length : Int) ≥ 5 then 20
                  else if (sources.length : Int) ≥ 3 then 10
                  else if (sources.length : Int) ≥ 1 then 5 else 0)
              + 25
              + (if q ≥ 9 / 10 then 20 else if q ≥ 3 / 4 then 10
                 else if q ≥ 1 / 2 then 5 else 0)
              + (if monte_carlo then 15 else 0)
              + (if human_verified then 20 else 0) := by
          simp [raw_trust_score, score_sources_part, score_approver_part,
            score_confidence_part, score_mc_part, score_hv_part, extract_sources,
            extract_approver, approver_at, extract_confidence, has_raci_chain,
            check_monte_carlo, check_human_verified, optStrTruthy, generated_receipt,
            dictGet?, dictGetD, truthy, asInt, pyFloat, pyStr, ha, hq0, hq1]
        rw [hraw]
        simp [get_expected_level, generated_receipt, dictGet?, dictGetD, truthy, pyLen,
          numComparable, sim_level, get_trust_level, SCORE_GREEN_MIN, SCORE_YELLOW_MIN,
          ha, hq]

/-- Claim C1, counterexample to the claim as stated: on the receipt
`{"source_count": 5}` the scorer reads the explicit count (+20, score 70,
YELLOW) while the expected-level reference only measures the absent
`sources` list (score 50, RED) — the reference does not track the scoring
algorithm on every receipt dict. -/
theorem claim_C1_counterexample :
    compute_trust_score [("source_count", Value.vint 5)] = ([], Except.ok 70)
    ∧ get_trust_level 70 = "YELLOW"
    ∧ get_expected_level [("source_count", Value.vint 5)] = Except.ok "RED"
    ∧ ("RED" : String) ≠ "YELLOW" := by
  exact ⟨rfl, rfl, rfl, by decide⟩

/-- Claim C1, witness: the amended agreement applied to a concrete
generated-shape receipt with five sources, an approver, confidence 0.95
and both flags set. -/
theorem claim_C1_witness :
    ∃ s : Int,
      compute_trust_score (generated_receipt "2025-01-04T10:00:00Z" "decision_7"
          [Value.vstr "s0", Value.vstr "s1", Value.vstr "s2", Value.vstr "s3", Value.vstr "s4"]
          true true (some "CPT Smith") (some (19 / 20))) = ([], Except.ok s)
      ∧ get_expected_level (generated_receipt "2025-01-04T10:00:00Z" "decision_7"
          [Value.vstr "s0", Value.vstr "s1", Value.vstr "s2", Value.vstr "s3", Value.vstr "s4"]
          true true (some "CPT Smith") (some (19 / 20))) =
          Except.ok (get_trust_level s) := by
  apply claim_C1
  · intro a h
    cases h
    decide
  · intro q h
    cases h
    constructor <;> norm_num

end TrustChain
